import Mathlib

/-!
Verification development for the Mediabunny Player (src/src/main.ts).

The source file contains two iterations of the same widget:

* Variant A (lines 1-827): a sequential video player with a WebGL
  SimpleZoom cross-fade (`GLTransitionRenderer`, `switchToVideo`,
  `performGLTransition`).
* Variant B (lines 828-1562): a sequential video/image player with
  background-music ducking (`switchToMedia`, `adjustMusicVolume`,
  `startImageTimer`).

Numbers are modelled over `ℚ` (the JavaScript arithmetic involved is
exact on the small rationals that appear).  Wall-clock instants
(`Date.now()`) and animation-frame cadences are passed in explicitly as
lists of tick times.  DOM elements are identified by natural numbers;
fallible browser operations (resource loads, `play()` calls) are
represented by explicit outcome parameters.
-/

namespace Mediabunny

/-! ### SimpleZoom shader (`simpleZoomShader`, `GLTransitionRenderer.render`)

The fragment shader computes, for each uv coordinate:
  zoomFactor = 1.0 + (zoom - 1.0) * progress
  zoomedUV   = center + (uv - center) / zoomFactor
  mixFactor  = smoothstep(0.0, 1.0, progress)
  result     = mix(getFromColor(zoomedUV), getToColor(uv), mixFactor)
-/

/-- An RGBA color, as produced by `texture2D`. -/
structure Vec4 where
  x : ℚ
  y : ℚ
  z : ℚ
  w : ℚ
  deriving DecidableEq, Repr

/-- GLSL `clamp` on scalars. -/
def clampQ (v lo hi : ℚ) : ℚ := min (max v lo) hi

/-- GLSL `smoothstep(edge0, edge1, x)`. -/
def smoothstep (e0 e1 v : ℚ) : ℚ :=
  let t := clampQ ((v - e0) / (e1 - e0)) 0 1
  t * t * (3 - 2 * t)

/-- GLSL `mix(a, b, t)` on vec4, componentwise `a + (b - a) * t`. -/
def mixV (a b : Vec4) (t : ℚ) : Vec4 :=
  ⟨a.x + (b.x - a.x) * t, a.y + (b.y - a.y) * t,
   a.z + (b.z - a.z) * t, a.w + (b.w - a.w) * t⟩

/-- `float zoomFactor = 1.0 + (zoom - 1.0) * progress;` -/
def zoomFactor (zoom progress : ℚ) : ℚ := 1 + (zoom - 1) * progress

/-- `vec2 zoomedUV = center + (uv - center) / zoomFactor;` with
`center = vec2(0.5, 0.5)`. -/
def zoomedUV (zoom progress : ℚ) (uv : ℚ × ℚ) : ℚ × ℚ :=
  (1/2 + (uv.1 - 1/2) / zoomFactor zoom progress,
   1/2 + (uv.2 - 1/2) / zoomFactor zoom progress)

/-- The body of `vec4 transition (vec2 uv)` from `simpleZoomShader`:
sample the from-texture at the zoomed uv, the to-texture at the raw uv,
and blend with the smoothstep-eased progress. -/
def transitionShader (fromTex toTex : ℚ × ℚ → Vec4) (zoom progress : ℚ)
    (uv : ℚ × ℚ) : Vec4 :=
  let fromColor := fromTex (zoomedUV zoom progress uv)
  let toColor := toTex uv
  let mixFactor := smoothstep 0 1 progress
  mixV fromColor toColor mixFactor

/-- `MediabunnyPlayer.renderSingleFrame` (and the non-transitioning arm of
`startVideoRender`): both texture slots are bound to the current video and
`render` is invoked with `progress = 0` (the `zoom` uniform keeps its
default `0.9`, but the theorem below holds for every zoom). -/
def renderSingleFrame (cur : ℚ × ℚ → Vec4) (zoom : ℚ) (uv : ℚ × ℚ) : Vec4 :=
  transitionShader cur cur zoom 0 uv

/-! ### Transition progress ramp (`MediabunnyPlayer.performGLTransition`)

`performGLTransition` records `startTime = Date.now()`, then on every
animation-frame tick sets
  `transitionProgress = Math.min(elapsed / duration, 1)`
and reschedules itself while `transitionProgress < 1`; once the computed
progress is not `< 1` it resets the field to `0` and resolves the
promise.  The session swap in `switchToVideo` runs only after that
resolution.  We model the loop as a function of the list of wall-clock
times at which the frame callback fires, returning the sequence of
progress values assigned on successive ticks and whether the promise
resolved within the given ticks. -/

/-- The transition duration constant in `performGLTransition`
(`const duration = 1500`). -/
def transitionDurationMs : ℚ := 1500

/-- The progress value computed on a tick at wall-clock time `t`:
`Math.min(elapsed / duration, 1)` with `elapsed = t - startTime`. -/
def transitionProgressAt (duration startTime t : ℚ) : ℚ :=
  min ((t - startTime) / duration) 1

/-- The `animateTransition` loop of `performGLTransition`, run over the
given list of frame-callback times.  Returns the trace of progress
values assigned and whether `resolve()` was reached. -/
def animateTransition (duration startTime : ℚ) : List ℚ → List ℚ × Bool
  | [] => ([], false)
  | t :: rest =>
    let p := transitionProgressAt duration startTime t
    if p < 1 then
      let s := animateTransition duration startTime rest
      (p :: s.1, s.2)
    else
      ([p], true)

theorem transitionProgressAt_le_one (duration startTime t : ℚ) :
    transitionProgressAt duration startTime t ≤ 1 :=
  min_le_right _ _

theorem transitionProgressAt_mono (duration startTime : ℚ) (hD : 0 < duration)
    {t t' : ℚ} (h : t ≤ t') :
    transitionProgressAt duration startTime t ≤ transitionProgressAt duration startTime t' := by
  unfold transitionProgressAt
  gcongr

theorem animateTransition_head (duration startTime t : ℚ) (rest : List ℚ) :
    (animateTransition duration startTime (t :: rest)).1.head? =
      some (transitionProgressAt duration startTime t) := by
  rw [animateTransition]
  dsimp only
  split <;> rfl

theorem animateTransition_chain (duration startTime : ℚ) (hD : 0 < duration)
    (times : List ℚ) (h : List.Chain' (· ≤ ·) times) :
    List.Chain' (· ≤ ·) (animateTransition duration startTime times).1 := by
  induction times with
  | nil => simp [animateTransition]
  | cons t rest ih =>
    rw [List.chain'_cons'] at h
    obtain ⟨hhead, htail⟩ := h
    rw [animateTransition]
    dsimp only
    split
    · rw [List.chain'_cons']
      refine ⟨?_, ih htail⟩
      intro y hy
      cases rest with
      | nil => simp [animateTransition] at hy
      | cons t' r =>
        rw [animateTransition_head] at hy
        simp only [Option.mem_def, Option.some.injEq] at hy
        subst hy
        exact transitionProgressAt_mono duration startTime hD (hhead t' (by simp))
    · simp

theorem animateTransition_resolved_last (duration startTime : ℚ) (times : List ℚ)
    (h : (animateTransition duration startTime times).2 = true) :
    ∃ l, (animateTransition duration startTime times).1 = l ++ [1] := by
  induction times with
  | nil => simp [animateTransition] at h
  | cons t rest ih =>
    rw [animateTransition] at h ⊢
    dsimp only at h ⊢
    by_cases hp : transitionProgressAt duration startTime t < 1
    · rw [if_pos hp] at h ⊢
      obtain ⟨l, hl⟩ := ih h
      exact ⟨transitionProgressAt duration startTime t :: l, by simp [hl]⟩
    · rw [if_neg hp]
      refine ⟨[], ?_⟩
      have h1 : transitionProgressAt duration startTime t = 1 :=
        le_antisymm (transitionProgressAt_le_one duration startTime t) (not_lt.mp hp)
      simp [h1]

/-- Claim C1: during a media switch, the transition progress assigned on
successive animation-frame ticks is monotonically non-decreasing, and the
promise of `performGLTransition` (which gates the session swap in
`switchToVideo`) resolves only after a tick on which the computed
progress is exactly 1 — for any duration D > 0 and any non-decreasing
frame-callback cadence. -/
theorem c1_transition_progress_monotone_reaches_one
    (duration startTime : ℚ) (times : List ℚ)
    (hD : 0 < duration)
    (hchain : List.Chain' (· ≤ ·) (startTime :: times)) :
    List.Chain' (· ≤ ·) (animateTransition duration startTime times).1 ∧
    ((animateTransition duration startTime times).2 = true →
      ∃ l, (animateTransition duration startTime times).1 = l ++ [1]) :=
  ⟨animateTransition_chain duration startTime hD times hchain.tail,
   animateTransition_resolved_last duration startTime times⟩

/-- Witness for C1 at duration 2ms, start time 0, ticks at 0, 1, 2, 5:
the trace is `[0, 1/2, 1]` and the loop resolves. -/
theorem c1_witness :
    List.Chain' (· ≤ ·) (animateTransition 2 0 [0, 1, 2, 5]).1 ∧
    ((animateTransition 2 0 [0, 1, 2, 5]).2 = true →
      ∃ l, (animateTransition 2 0 [0, 1, 2, 5]).1 = l ++ [1]) :=
  c1_transition_progress_monotone_reaches_one 2 0 [0, 1, 2, 5]
    (by norm_num) (by norm_num [List.chain'_cons, List.chain'_singleton])

/-! ### Variant A controller state (`MediabunnyPlayer`, lines 233-818)

`switchToVideo(index, autoPlay)` is modelled as a state transformer.
The outcome of the two awaited fallible operations inside it —
`loadNextVideo(index)` (metadata load of the pending video) and
`nextVideo.play()` — are passed in as booleans `loadOk` / `playOk`;
`newId` identifies the freshly created pending video element and `err`
is the text of the caught exception, if any.  Alongside the new state we
return the list of observable side effects (pauses, load starts,
listener churn), so that "no reload, no listener churn" claims can be
stated as the effect list being empty. -/

/-- The fixed playlist of variant A (`demoVideoUrls`). -/
def demoVideoUrls : List String :=
  ["https://pub-bc00aeb1aeab4b7480c2d94365bb62a9.r2.dev/Brian.mp4",
   "https://pub-bc00aeb1aeab4b7480c2d94365bb62a9.r2.dev/Vaibhav.mp4",
   "https://pub-bc00aeb1aeab4b7480c2d94365bb62a9.r2.dev/abbey_bradley (720p).mp4"]

/-- Status-display messages written by variant A's `updateStatus` calls
along the switch path. -/
inductive StatusA where
  /-- "Loading next video for transition..." -/
  | loadingNextVideo
  /-- "Transition error: " followed by the caught error (catch block of
  `switchToVideo`). -/
  | transitionError (err : String)
  /-- "GL Transition complete!" -/
  | glTransitionComplete
  /-- Any other status message, carried verbatim. -/
  | other (msg : String)
  deriving DecidableEq, Repr

/-- Observable side effects of `switchToVideo`. -/
inductive EffectA where
  /-- A `video.pause()` call. -/
  | pauseVideo
  /-- `loadNextVideo(index)` started loading the entry at `index`. -/
  | loadStart (index : ℤ)
  /-- A `nextVideo.play()` attempt. -/
  | playAttempt
  /-- `removeVideoEventListeners()` detached listeners. -/
  | listenerDetach
  /-- `setupVideoEventListeners()` attached listeners. -/
  | listenerAttach
  deriving DecidableEq, Repr

/-- The controller fields of variant A touched by `switchToVideo`. -/
structure PlayerA where
  currentIndex : ℤ
  isPlaying : Bool
  isTransitioning : Bool
  currentVideo : Option ℕ
  nextVideo : Option ℕ
  status : StatusA
  deriving DecidableEq, Repr

/-- `MediabunnyPlayer.switchToVideo` (variant A, lines 593-663).

The guard is the source condition
`index >= 0 && index < demoVideoUrls.length && index !== this.currentIndex
 && !this.isTransitioning`; when it fails the body is skipped entirely.
Inside the try block: `isTransitioning` is set, the current video is
paused if playing, the pending element is created and assigned to
`nextVideo` by `loadNextVideo`, then (if `shouldPlay`) the pending video
is played, the GL transition runs to completion, and the swap promotes
the pending video.  A rejection of either await lands in the catch
block, which only writes the error status and clears `isTransitioning`. -/
def switchToVideo (index : ℤ) (autoPlay loadOk playOk : Bool)
    (newId : ℕ) (err : String) (s : PlayerA) : PlayerA × List EffectA :=
  if 0 ≤ index ∧ index < (demoVideoUrls.length : ℤ) ∧ index ≠ s.currentIndex
      ∧ s.isTransitioning = false then
    let wasPlaying := s.isPlaying
    let s1 : PlayerA := { s with isTransitioning := true }
    let paused := s1.currentVideo.isSome && s1.isPlaying
    let s2 : PlayerA := if paused then { s1 with isPlaying := false } else s1
    let eff1 : List EffectA := if paused then [EffectA.pauseVideo] else []
    -- "Loading next video for transition..." then loadNextVideo(index),
    -- which assigns the new element to `this.nextVideo` before resolving
    -- or rejecting.
    let s3 : PlayerA := { s2 with status := StatusA.loadingNextVideo, nextVideo := some newId }
    let eff2 : List EffectA := eff1 ++ [EffectA.loadStart index]
    if loadOk = false then
      -- catch: updateStatus with the error, isTransitioning = false
      ({ s3 with status := StatusA.transitionError err, isTransitioning := false }, eff2)
    else
      let shouldPlay := autoPlay || wasPlaying
      if shouldPlay && !playOk then
        -- `await nextVideo.play()` rejected; caught by the same catch block
        ({ s3 with status := StatusA.transitionError err, isTransitioning := false },
         eff2 ++ [EffectA.playAttempt])
      else
        -- transition completes, then the swap: pause and drop the old
        -- current video, promote the pending one, rebind listeners
        let effPlay : List EffectA := if shouldPlay then [EffectA.playAttempt] else []
        let effSwap : List EffectA :=
          (if s3.currentVideo.isSome then [EffectA.pauseVideo, EffectA.listenerDetach] else [])
            ++ [EffectA.listenerDetach, EffectA.listenerAttach]
        ({ s3 with
            currentVideo := some newId
            nextVideo := none
            currentIndex := index
            isPlaying := shouldPlay
            status := StatusA.glTransitionComplete
            isTransitioning := false },
         eff2 ++ effPlay ++ effSwap)
  else (s, [])

/-- Claim C4: `switchToVideo(i)` while a transition is already in
progress (`isTransitioning` true) is rejected by the entry guard and
leaves the controller state unchanged, producing no side effects — at
most one switch is in flight at a time. -/
theorem c4_switch_rejected_while_transitioning
    (index : ℤ) (autoPlay loadOk playOk : Bool) (newId : ℕ) (err : String)
    (s : PlayerA) (h : s.isTransitioning = true) :
    switchToVideo index autoPlay loadOk playOk newId err s = (s, []) := by
  unfold switchToVideo
  rw [if_neg]
  simp [h]

/-- Witness for C4: a concrete mid-transition state is left untouched. -/
theorem c4_witness :
    switchToVideo 2 true true true 9 "e"
      ⟨0, true, true, some 1, some 2, StatusA.loadingNextVideo⟩ =
      (⟨0, true, true, some 1, some 2, StatusA.loadingNextVideo⟩, []) :=
  c4_switch_rejected_while_transitioning 2 true true true 9 "e" _ rfl

/-! ### Variant B controller state (`MediabunnyPlayer`, lines 849-1553)

Variant B plays videos and images, ducks a background-music track by
media kind, and has no GL transition.  `switchToMedia(index, autoPlay)`
updates `currentIndex` first and then calls `loadCurrentMedia`, which
tears down the old media element before attempting the load and catches
load errors itself (without rethrowing).  A failing image load rejects
`loadImage`'s promise; a failing video load never rejects (`loadVideo`
installs no error listener), so that switch stalls — modelled by an
`Option` result where `none` means the switch never completes. -/

/-- The `type` tag of a playlist entry (`MediaItem.type`). -/
inductive MediaType where
  | video
  | image
  deriving DecidableEq, Repr

/-- A playlist entry (`MediaItem`): url, kind, optional display duration
in seconds for images. -/
structure MediaItem where
  url : String
  type : MediaType
  duration : Option ℚ
  deriving DecidableEq, Repr

/-- The fixed playlist of variant B (`demoMediaUrls`). -/
def demoMediaUrls : List MediaItem :=
  [⟨"https://pub-bc00aeb1aeab4b7480c2d94365bb62a9.r2.dev/Brian.mp4", MediaType.video, none⟩,
   ⟨"https://pub-bc00aeb1aeab4b7480c2d94365bb62a9.r2.dev/pexels-noelace-32608050.jpg",
     MediaType.image, some 5⟩,
   ⟨"https://pub-bc00aeb1aeab4b7480c2d94365bb62a9.r2.dev/Vaibhav.mp4", MediaType.video, none⟩,
   ⟨"https://pub-bc00aeb1aeab4b7480c2d94365bb62a9.r2.dev/abbey_bradley (720p).mp4",
     MediaType.video, none⟩]

/-- `demoMediaUrls[i]` for an integer index (defined when `0 ≤ i` and
`i` is in range). -/
def mediaItemAt (i : ℤ) : Option MediaItem :=
  if 0 ≤ i then demoMediaUrls.get? i.toNat else none

/-- `this.musicVolumes = { video: 0.1, image: 0.9 }` (line 869). -/
def musicVolumes : MediaType → ℚ
  | MediaType.video => 1/10
  | MediaType.image => 9/10

/-- Status-display messages written by variant B's `updateStatus` calls
along the switch path. -/
inductive StatusB where
  /-- "Loading media..." -/
  | loadingMedia
  /-- "Video loaded. Ready to play." -/
  | videoLoaded
  /-- "Image loaded. Ready to display." -/
  | imageLoaded
  /-- "Error loading media: " followed by the caught error (catch block
  of `loadCurrentMedia`). -/
  | errorLoadingMedia (err : String)
  /-- "Media switched successfully!" -/
  | mediaSwitched
  /-- "Switch error: " followed by the caught error (catch block of
  `switchToMedia`; unreachable for load failures because
  `loadCurrentMedia` does not rethrow). -/
  | switchError (err : String)
  /-- Any other status message, carried verbatim. -/
  | other (msg : String)
  deriving DecidableEq, Repr

/-- Observable side effects of `switchToMedia` / `loadCurrentMedia`. -/
inductive EffectB where
  /-- Pausing the current media (video `pause()` or clearing the image
  timer). -/
  | pauseMedia
  /-- A load of the entry at `index` was started. -/
  | loadStart (index : ℤ)
  /-- `removeMediaEventListeners()` detached listeners. -/
  | listenerDetach
  /-- `setupMediaEventListeners()` attached listeners. -/
  | listenerAttach
  /-- `adjustMusicVolume(kind)` began a volume ramp. -/
  | musicRampStart (kind : MediaType)
  /-- `controlBlankVideo(kind)` ran. -/
  | blankVideoControl (kind : MediaType)
  /-- `syncMusicPlayback()` ran. -/
  | syncMusic
  /-- A write to the status display, in order. -/
  | statusWrite (st : StatusB)
  deriving DecidableEq, Repr

/-- The controller fields of variant B touched by the switch path. -/
structure PlayerB where
  currentIndex : ℤ
  isPlaying : Bool
  currentMedia : Option ℕ
  duration : ℚ
  currentTime : ℚ
  /-- Target of the most recent `adjustMusicVolume` ramp. -/
  musicRampTarget : ℚ
  status : StatusB
  deriving DecidableEq, Repr

/-- `MediabunnyPlayer.loadCurrentMedia` (variant B, lines 1000-1041).

The try block writes "Loading media...", tears down the previous media
element (listeners, image timer, removal), reads the entry at
`currentIndex`, and awaits `loadVideo` or `loadImage`.  On success the
load handler sets `duration`/`currentMedia` and its ready status, then
`setupMediaEventListeners`, `adjustMusicVolume`, `controlBlankVideo` and
(if `autoPlay`) `syncMusicPlayback` run.  An image-load rejection is
caught here and only writes "Error loading media: ..."; a video-load
failure never rejects, so the await never resolves (`none`).  `dur` is
the decoded duration of a successfully loaded video. -/
def loadCurrentMedia (autoPlay loadOk : Bool) (newId : ℕ) (dur : ℚ)
    (err : String) (s : PlayerB) : Option (PlayerB × List EffectB) :=
  let s0 : PlayerB := { s with status := StatusB.loadingMedia }
  let e0 : List EffectB := [EffectB.statusWrite StatusB.loadingMedia]
  -- teardown of the previous media element
  let eTear : List EffectB :=
    if s0.currentMedia.isSome then [EffectB.listenerDetach, EffectB.pauseMedia] else []
  let s1 : PlayerB := { s0 with currentMedia := none }
  match mediaItemAt s1.currentIndex with
  | none =>
      -- accessing a missing entry throws; caught by the catch block
      some ({ s1 with status := StatusB.errorLoadingMedia err },
        e0 ++ eTear ++ [EffectB.statusWrite (StatusB.errorLoadingMedia err)])
  | some item =>
      match item.type, loadOk with
      | MediaType.video, false =>
          -- `loadVideo` has no error listener: the promise never settles
          none
      | MediaType.video, true =>
          let s2 : PlayerB := { s1 with
            duration := dur
            currentMedia := some newId
            status := StatusB.videoLoaded }
          some ({ s2 with musicRampTarget := musicVolumes item.type },
            e0 ++ eTear ++ [EffectB.loadStart s1.currentIndex,
              EffectB.statusWrite StatusB.videoLoaded,
              EffectB.listenerDetach, EffectB.listenerAttach,
              EffectB.musicRampStart item.type,
              EffectB.blankVideoControl item.type]
              ++ (if autoPlay then [EffectB.syncMusic] else []))
      | MediaType.image, false =>
          -- image error event rejects `loadImage`; caught by the catch block
          some ({ s1 with status := StatusB.errorLoadingMedia err },
            e0 ++ eTear ++ [EffectB.loadStart s1.currentIndex,
              EffectB.statusWrite (StatusB.errorLoadingMedia err)])
      | MediaType.image, true =>
          let s2 : PlayerB := { s1 with
            duration := item.duration.getD 5
            currentTime := 0
            currentMedia := some newId
            status := StatusB.imageLoaded }
          -- `startImageDisplay` runs inside the load handler when autoPlay
          let s3 : PlayerB := if autoPlay then { s2 with isPlaying := true } else s2
          some ({ s3 with musicRampTarget := musicVolumes item.type },
            e0 ++ eTear ++ [EffectB.loadStart s1.currentIndex,
              EffectB.statusWrite StatusB.imageLoaded]
              ++ (if autoPlay then [EffectB.syncMusic] else [])
              ++ [EffectB.listenerDetach, EffectB.listenerAttach,
                EffectB.musicRampStart item.type,
                EffectB.blankVideoControl item.type]
              ++ (if autoPlay then [EffectB.syncMusic] else []))

/-- `MediabunnyPlayer.switchToMedia` (variant B, lines 1322-1351).

The guard is `index >= 0 && index < demoMediaUrls.length &&
index !== this.currentIndex`.  The body writes "Loading media...",
pauses the current media if playing, sets `currentIndex := index`
**before** loading, awaits `loadCurrentMedia` (which swallows load
errors), and finally writes "Media switched successfully!". -/
def switchToMedia (index : ℤ) (autoPlay loadOk : Bool) (newId : ℕ)
    (dur : ℚ) (err : String) (s : PlayerB) : Option (PlayerB × List EffectB) :=
  if 0 ≤ index ∧ index < (demoMediaUrls.length : ℤ) ∧ index ≠ s.currentIndex then
    let s0 : PlayerB := { s with status := StatusB.loadingMedia }
    let e0 : List EffectB := [EffectB.statusWrite StatusB.loadingMedia]
    let paused := s0.currentMedia.isSome && s0.isPlaying
    let s1 : PlayerB := if paused then { s0 with isPlaying := false } else s0
    let e1 : List EffectB := if paused then [EffectB.pauseMedia] else []
    let s2 : PlayerB := { s1 with currentIndex := index }
    match loadCurrentMedia autoPlay loadOk newId dur err s2 with
    | none => none
    | some (s3, e2) =>
        some ({ s3 with status := StatusB.mediaSwitched },
          e0 ++ e1 ++ e2 ++ [EffectB.statusWrite StatusB.mediaSwitched])
  else some (s, [])

/-- Claim C5: switching to the index that is already current is a no-op
in both variants: the guard `index !== this.currentIndex` fails, so no
media element is reloaded, no listeners are detached or reattached, and
the state is returned unchanged with an empty effect list. -/
theorem c5_same_index_noop (autoPlay loadOk playOk : Bool) (newId : ℕ)
    (dur : ℚ) (err : String) (sA : PlayerA) (sB : PlayerB) :
    switchToVideo sA.currentIndex autoPlay loadOk playOk newId err sA = (sA, []) ∧
    switchToMedia sB.currentIndex autoPlay loadOk newId dur err sB = some (sB, []) := by
  constructor
  · unfold switchToVideo
    rw [if_neg]
    simp
  · unfold switchToMedia
    rw [if_neg]
    simp

/-- Claim C9: an index that is out of range of the playlist of the
function being called (negative, or at least that playlist's length)
fails its entry guard: no load is attempted, no error is raised, and the
whole controller state is unchanged.  Each variant is judged against its
own playlist — `switchToVideo` against the 3-entry `demoVideoUrls`,
`switchToMedia` against the 4-entry `demoMediaUrls` — so, for example,
index 3 is a silent no-op for `switchToVideo` even though it is in range
for `switchToMedia`. -/
theorem c9_out_of_range_noop (index : ℤ) (autoPlay loadOk playOk : Bool)
    (newId : ℕ) (dur : ℚ) (err : String) (sA : PlayerA) (sB : PlayerB) :
    (index < 0 ∨ (demoVideoUrls.length : ℤ) ≤ index →
      switchToVideo index autoPlay loadOk playOk newId err sA = (sA, [])) ∧
    (index < 0 ∨ (demoMediaUrls.length : ℤ) ≤ index →
      switchToMedia index autoPlay loadOk newId dur err sB = some (sB, [])) := by
  constructor
  · intro hA
    have hgA : ¬(0 ≤ index ∧ index < (demoVideoUrls.length : ℤ) ∧ index ≠ sA.currentIndex
        ∧ sA.isTransitioning = false) := by
      have hlen : ((demoVideoUrls.length : ℕ) : ℤ) = 3 := by norm_num [demoVideoUrls]
      rw [hlen] at hA ⊢
      rintro ⟨h1, h2, -, -⟩
      rcases hA with h | h <;> omega
    unfold switchToVideo
    rw [if_neg hgA]
  · intro hB
    have hgB : ¬(0 ≤ index ∧ index < (demoMediaUrls.length : ℤ) ∧ index ≠ sB.currentIndex) := by
      have hlen : ((demoMediaUrls.length : ℕ) : ℤ) = 4 := by norm_num [demoMediaUrls]
      rw [hlen] at hB ⊢
      rintro ⟨h1, h2, -⟩
      rcases hB with h | h <;> omega
    unfold switchToMedia
    rw [if_neg hgB]

/-- Witness for C9 at the boundary indices of each variant's own
playlist: index 3 (out of range only for `switchToVideo`'s 3-entry
playlist) and index 4 (out of range for `switchToMedia`'s 4-entry
playlist). -/
theorem c9_witness :
    switchToVideo 3 true true true 9 "e"
        ⟨0, false, false, some 1, none, StatusA.other "init"⟩ =
      (⟨0, false, false, some 1, none, StatusA.other "init"⟩, []) ∧
    switchToMedia 4 true true 9 7 "e"
        ⟨0, false, some 1, 10, 0, 1/10, StatusB.other "init"⟩ =
      some (⟨0, false, some 1, 10, 0, 1/10, StatusB.other "init"⟩, []) :=
  ⟨(c9_out_of_range_noop 3 true true true 9 7 "e"
        ⟨0, false, false, some 1, none, StatusA.other "init"⟩
        ⟨0, false, some 1, 10, 0, 1/10, StatusB.other "init"⟩).1
      (Or.inr (by norm_num [demoVideoUrls])),
   (c9_out_of_range_noop 4 true true true 9 7 "e"
        ⟨0, false, false, some 1, none, StatusA.other "init"⟩
        ⟨0, false, some 1, 10, 0, 1/10, StatusB.other "init"⟩).2
      (Or.inr (by norm_num [demoMediaUrls]))⟩

/-- A concrete variant B state: index 0 current, playing, with a live
media element. -/
def c2FailState : PlayerB :=
  ⟨0, true, some 0, 10, 3, 1/10, StatusB.other "init"⟩

/-- Counterexample to claim C2 as stated: switching from index 0 to
index 1 (the image entry) with a failing load does NOT leave the
controller state unchanged in variant B.  `switchToMedia` advances
`currentIndex` to 1 before loading and `loadCurrentMedia` tears the old
media down first, so after the failure the new index is current, no
media element exists, and the final status is the success message
(the transient load-error status was overwritten). -/
theorem c2_counterexample :
    (switchToMedia 1 true false 7 5 "network error" c2FailState).map
        (fun r => (r.1.currentIndex, r.1.currentMedia, r.1.status))
      = some (1, none, StatusB.mediaSwitched)
    ∧ c2FailState.currentIndex = 0 ∧ c2FailState.currentMedia = some 0 := by
  decide

/-- Claim C2, amended: a load failure is surfaced to the status display
and never thrown past the controller, but the two variants fall back
differently.  In variant A (`switchToVideo`) the switch is aborted
unchanged: `currentIndex` and the current video are not modified and the
status shows the transition error.  In variant B (`switchToMedia`) the
index has already been advanced and the old media torn down when an
image load fails, so the NEW index remains current with no media
element; the load-error status is written but then overwritten by the
completion status (a failing video load instead stalls the switch). -/
theorem c2_load_failure_fallback
    (index : ℤ) (autoPlay playOk : Bool) (newId : ℕ) (dur : ℚ) (err : String)
    (sA : PlayerA) (sB : PlayerB) (item : MediaItem)
    (hA : 0 ≤ index ∧ index < (demoVideoUrls.length : ℤ) ∧ index ≠ sA.currentIndex
          ∧ sA.isTransitioning = false)
    (hB : 0 ≤ index ∧ index < (demoMediaUrls.length : ℤ) ∧ index ≠ sB.currentIndex)
    (hitem : mediaItemAt index = some item) (himg : item.type = MediaType.image) :
    ((switchToVideo index autoPlay false playOk newId err sA).1.currentIndex = sA.currentIndex
      ∧ (switchToVideo index autoPlay false playOk newId err sA).1.currentVideo = sA.currentVideo
      ∧ (switchToVideo index autoPlay false playOk newId err sA).1.status
          = StatusA.transitionError err
      ∧ (switchToVideo index autoPlay false playOk newId err sA).1.isTransitioning = false)
    ∧ ∃ r, switchToMedia index autoPlay false newId dur err sB = some r
        ∧ r.1.currentIndex = index ∧ r.1.currentMedia = none
        ∧ EffectB.statusWrite (StatusB.errorLoadingMedia err) ∈ r.2
        ∧ r.1.status = StatusB.mediaSwitched := by
  obtain ⟨iurl, ity, idur⟩ := item
  simp only at himg
  subst himg
  constructor
  · unfold switchToVideo
    rw [if_pos hA]
    by_cases hp : (sA.currentVideo.isSome && sA.isPlaying) = true <;>
      simp [hp]
  · unfold switchToMedia
    rw [if_pos hB]
    by_cases hp : (sB.currentMedia.isSome && sB.isPlaying) = true <;>
      simp [hp, loadCurrentMedia, hitem]

/-- Witness for the amended C2 at the concrete failing switch from
index 0 to the image entry at index 1. -/
theorem c2_witness :
    ((switchToVideo 1 true false true 7 "network error"
        ⟨0, true, false, some 0, none, StatusA.other "init"⟩).1.currentIndex
        = (⟨0, true, false, some 0, none, StatusA.other "init"⟩ : PlayerA).currentIndex
      ∧ (switchToVideo 1 true false true 7 "network error"
          ⟨0, true, false, some 0, none, StatusA.other "init"⟩).1.currentVideo
          = (⟨0, true, false, some 0, none, StatusA.other "init"⟩ : PlayerA).currentVideo
      ∧ (switchToVideo 1 true false true 7 "network error"
          ⟨0, true, false, some 0, none, StatusA.other "init"⟩).1.status
          = StatusA.transitionError "network error"
      ∧ (switchToVideo 1 true false true 7 "network error"
          ⟨0, true, false, some 0, none, StatusA.other "init"⟩).1.isTransitioning = false)
    ∧ ∃ r, switchToMedia 1 true false 7 5 "network error" c2FailState = some r
        ∧ r.1.currentIndex = 1 ∧ r.1.currentMedia = none
        ∧ EffectB.statusWrite (StatusB.errorLoadingMedia "network error") ∈ r.2
        ∧ r.1.status = StatusB.mediaSwitched :=
  c2_load_failure_fallback 1 true true 7 5 "network error"
    ⟨0, true, false, some 0, none, StatusA.other "init"⟩ c2FailState
    ⟨"https://pub-bc00aeb1aeab4b7480c2d94365bb62a9.r2.dev/pexels-noelace-32608050.jpg",
      MediaType.image, some 5⟩
    (by norm_num [demoVideoUrls]) (by norm_num [demoMediaUrls, c2FailState])
    (by decide) rfl

/-! ### Autoplay-rejection handling (claim C3)

Every `await <element>.play()` in the controller sits inside a
try/catch (or a `.catch(...)`), so a platform rejection of `play()` is
caught at the operation boundary and converted into a status update.
The enumeration below lists the play-attempt sites named by the claim;
for each, `handleAutoplayRejection` records what the catch block does:
whether the rejection is caught, the status-display message written, and
the `isPlaying` flag after handling. -/

/-- The controller code paths that attempt programmatic playback. -/
inductive PlaySite where
  /-- Variant A `loadCurrentVideo` with `autoPlay` (lines 434-445):
  the `setTimeout` body awaits `play()` in its own try/catch. -/
  | initialLoadAutoPlayA
  /-- Variant A `switchToVideo`'s `await this.nextVideo.play()`
  (lines 611-615), caught by the method's outer catch block. -/
  | switchPlayA
  /-- Variant A `togglePlay` (lines 565-580). -/
  | togglePlayA
  /-- Variant B `loadVideo` with `autoPlay` (lines 1074-1086); reached
  from both the initial load and `switchToMedia` with autoplay. -/
  | videoLoadAutoPlayB
  /-- Variant B `togglePlay` (lines 1234-1280). -/
  | togglePlayB
  deriving DecidableEq, Repr

/-- What a catch block does with a rejected `play()` call. -/
structure RejectionOutcome where
  /-- The rejection was caught inside the controller. -/
  caught : Bool
  /-- The message written to the status display, if any. -/
  statusMessage : Option String
  /-- The `isPlaying` flag after the handler runs. -/
  isPlayingAfter : Bool
  deriving DecidableEq, Repr

/-- The catch-block behavior at each play-attempt site, read off the
source.  `err` is the rejection's text. -/
def handleAutoplayRejection (err : String) : PlaySite → RejectionOutcome
  | PlaySite.initialLoadAutoPlayA =>
      ⟨true, some "Click play to continue - auto-play blocked by browser", false⟩
  | PlaySite.switchPlayA => ⟨true, some ("Transition error: " ++ err), false⟩
  | PlaySite.togglePlayA => ⟨true, some ("Playback error: " ++ err), false⟩
  | PlaySite.videoLoadAutoPlayB =>
      ⟨true, some "Click play to continue - auto-play blocked by browser", false⟩
  | PlaySite.togglePlayB => ⟨true, some ("Playback error: " ++ err), false⟩

/-- Claim C3: at every site that attempts programmatic playback, a
rejected `play()` is caught (it never propagates past the controller),
leaves the controller in a not-playing state, and writes a user-facing
message to the status display.  In particular, in the modelled
`switchToVideo` a play rejection (autoplay with a successful load but
`playOk = false`) lands in the catch block: the controller ends not
playing, not transitioning, with the previous video still current and
the error surfaced as status. -/
theorem c3_autoplay_rejection_handled (err : String) (index : ℤ) (newId : ℕ)
    (s : PlayerA)
    (hguard : 0 ≤ index ∧ index < (demoVideoUrls.length : ℤ) ∧ index ≠ s.currentIndex
      ∧ s.isTransitioning = false)
    (hcur : s.currentVideo.isSome = true) :
    (∀ site, (handleAutoplayRejection err site).caught = true
      ∧ (handleAutoplayRejection err site).isPlayingAfter = false
      ∧ (handleAutoplayRejection err site).statusMessage.isSome = true)
    ∧ (switchToVideo index true true false newId err s).1.isPlaying = false
    ∧ (switchToVideo index true true false newId err s).1.status = StatusA.transitionError err
    ∧ (switchToVideo index true true false newId err s).1.isTransitioning = false
    ∧ (switchToVideo index true true false newId err s).1.currentVideo = s.currentVideo := by
  refine ⟨fun site => by cases site <;> simp [handleAutoplayRejection], ?_⟩
  unfold switchToVideo
  rw [if_pos hguard]
  cases hp : s.isPlaying <;> simp [hp, hcur]

/-- Witness for C3 at a concrete rejection and a concrete pre-switch
state. -/
theorem c3_witness :
    ((∀ site, (handleAutoplayRejection "NotAllowedError" site).caught = true
      ∧ (handleAutoplayRejection "NotAllowedError" site).isPlayingAfter = false
      ∧ (handleAutoplayRejection "NotAllowedError" site).statusMessage.isSome = true)
    ∧ (switchToVideo 1 true true false 5 "NotAllowedError"
        ⟨0, false, false, some 0, none, StatusA.other "init"⟩).1.isPlaying = false
    ∧ (switchToVideo 1 true true false 5 "NotAllowedError"
        ⟨0, false, false, some 0, none, StatusA.other "init"⟩).1.status
          = StatusA.transitionError "NotAllowedError"
    ∧ (switchToVideo 1 true true false 5 "NotAllowedError"
        ⟨0, false, false, some 0, none, StatusA.other "init"⟩).1.isTransitioning = false
    ∧ (switchToVideo 1 true true false 5 "NotAllowedError"
        ⟨0, false, false, some 0, none, StatusA.other "init"⟩).1.currentVideo
          = (⟨0, false, false, some 0, none, StatusA.other "init"⟩ : PlayerA).currentVideo) :=
  c3_autoplay_rejection_handled "NotAllowedError" 1 5 _
    (by norm_num [demoVideoUrls]) rfl

/-! ### Automatic advance on reachedEnd (claim C6)

`goToNextMedia` computes `(currentIndex + 1) % demoMediaUrls.length`.
It is invoked with `autoPlay = true` from exactly two places: the
`ended` listener of the current media and the end branch of the image
timer (`startImageTimer`), both of which are reachedEnd notifications.
The image timer is an animation-frame loop: while playing and the
current media is an image it computes `elapsed = (Date.now() -
imageStartTime) / 1000`, sets `currentTime = min(elapsed, duration)`,
and when `currentTime >= duration` calls `goToNextMedia(true)` once and
does NOT reschedule itself. -/

/-- `goToNextMedia`'s target index (line 1419). -/
def goToNextMediaIndex (i : ℤ) : ℤ := (i + 1) % (demoMediaUrls.length : ℤ)

/-- The `updateTimer` loop of `startImageTimer`, run over the listed
animation-frame ticks.  Each tick carries its wall-clock time and
whether the running condition (`isPlaying` and the current media still
being an image) holds at that tick.  Returns the number of
`goToNextMedia(true)` calls made. -/
def imageTimerAdvances (duration imageStartTime : ℚ) : List (ℚ × Bool) → ℕ
  | [] => 0
  | (t, running) :: rest =>
    if running then
      let elapsed := (t - imageStartTime) / 1000
      let cur := min elapsed duration
      if duration ≤ cur then 1
      else imageTimerAdvances duration imageStartTime rest
    else 0

/-- The code paths that call into the switch machinery in variant B,
tagged by whether they are user-initiated and whether they are
reachedEnd notifications. -/
inductive AdvanceTrigger where
  /-- Playlist item click: `switchToMedia(index, true)`. -/
  | playlistClick
  /-- ArrowUp key: `goToPreviousMedia()` with `autoPlay` defaulted. -/
  | keyArrowUp
  /-- ArrowDown key: `goToNextMedia()` with `autoPlay` defaulted. -/
  | keyArrowDown
  /-- The `ended` listener of the current media: `goToNextMedia(true)`. -/
  | videoEnded
  /-- The image timer reaching the display duration:
  `goToNextMedia(true)`. -/
  | imageTimerEnd
  deriving DecidableEq, Repr

/-- Whether the trigger is a direct user action. -/
def triggerIsUserInitiated : AdvanceTrigger → Bool
  | AdvanceTrigger.playlistClick => true
  | AdvanceTrigger.keyArrowUp => true
  | AdvanceTrigger.keyArrowDown => true
  | AdvanceTrigger.videoEnded => false
  | AdvanceTrigger.imageTimerEnd => false

/-- Whether the trigger is a reachedEnd notification from the current
session. -/
def triggerIsReachedEnd : AdvanceTrigger → Bool
  | AdvanceTrigger.videoEnded => true
  | AdvanceTrigger.imageTimerEnd => true
  | _ => false

theorem imageTimerAdvances_le_one (d s : ℚ) (ticks : List (ℚ × Bool)) :
    imageTimerAdvances d s ticks ≤ 1 := by
  induction ticks with
  | nil => simp [imageTimerAdvances]
  | cons q rest ih =>
    obtain ⟨t, running⟩ := q
    rw [imageTimerAdvances]
    dsimp only
    split
    · split
      · exact le_refl 1
      · exact ih
    · exact Nat.zero_le 1

theorem imageTimerAdvances_eq_one (d s : ℚ) (ticks : List (ℚ × Bool))
    (hrun : ∀ p ∈ ticks, p.2 = true)
    (hreach : ∃ p ∈ ticks, d ≤ (p.1 - s) / 1000) :
    imageTimerAdvances d s ticks = 1 := by
  induction ticks with
  | nil => simp at hreach
  | cons q rest ih =>
    obtain ⟨t, running⟩ := q
    have hqt : running = true := hrun (t, running) (by simp)
    subst hqt
    rw [imageTimerAdvances]
    dsimp only
    rw [if_pos rfl]
    by_cases hd : d ≤ min ((t - s) / 1000) d
    · rw [if_pos hd]
    · rw [if_neg hd]
      apply ih
      · exact fun p hp => hrun p (List.mem_cons_of_mem _ hp)
      · obtain ⟨p, hp, hdp⟩ := hreach
        rcases List.mem_cons.mp hp with rfl | hmem
        · exact absurd (le_min hdp (le_refl d)) hd
        · exact ⟨p, hmem, hdp⟩

/-- Claim C6: a reachedEnd notification triggers exactly one automatic
advance, to `(currentIndex + 1) mod playlistLength`, wrapping from the
last entry (index 3) back to 0 — and reachedEnd notifications (the
`ended` event and the image timer reaching the display duration) are the
only non-user-initiated triggers of the switch machinery.  The image
timer fires the advance exactly once (and stops) whenever it keeps
running and some tick's synthetic elapsed time reaches the display
duration. -/
theorem c6_reached_end_single_advance (d s : ℚ) (ticks : List (ℚ × Bool)) (i : ℤ)
    (hrun : ∀ p ∈ ticks, p.2 = true)
    (hreach : ∃ p ∈ ticks, d ≤ (p.1 - s) / 1000)
    (hi0 : 0 ≤ i) (hilt : i < (demoMediaUrls.length : ℤ)) :
    imageTimerAdvances d s ticks = 1
    ∧ goToNextMediaIndex i = (i + 1) % 4
    ∧ 0 ≤ goToNextMediaIndex i
    ∧ goToNextMediaIndex i < (demoMediaUrls.length : ℤ)
    ∧ goToNextMediaIndex 3 = 0
    ∧ (∀ tr, triggerIsUserInitiated tr = false → triggerIsReachedEnd tr = true) := by
  have hlen : ((demoMediaUrls.length : ℕ) : ℤ) = 4 := by norm_num [demoMediaUrls]
  refine ⟨imageTimerAdvances_eq_one d s ticks hrun hreach, ?_, ?_, ?_, ?_, ?_⟩
  · rw [goToNextMediaIndex, hlen]
  · exact Int.emod_nonneg (i + 1) (by rw [hlen]; norm_num)
  · rw [goToNextMediaIndex]
    apply Int.emod_lt_of_pos
    rw [hlen]; norm_num
  · decide
  · intro tr htr
    cases tr <;> simp_all [triggerIsUserInitiated, triggerIsReachedEnd]

/-- Witness for C6, with display duration 5s, timer start at 0, frame
ticks at 2000ms and 6000ms, and current index 2. -/
theorem c6_witness :
    imageTimerAdvances 5 0 [(2000, true), (6000, true)] = 1
    ∧ goToNextMediaIndex 2 = (2 + 1) % 4
    ∧ 0 ≤ goToNextMediaIndex 2
    ∧ goToNextMediaIndex 2 < (demoMediaUrls.length : ℤ)
    ∧ goToNextMediaIndex 3 = 0
    ∧ (∀ tr, triggerIsUserInitiated tr = false → triggerIsReachedEnd tr = true) :=
  c6_reached_end_single_advance 5 0 [(2000, true), (6000, true)] 2
    (by decide)
    ⟨(6000, true), by norm_num⟩
    (by norm_num) (by norm_num [demoMediaUrls])

/-! ### Pass-through rendering at progress 0 (claim C7) -/

theorem zoomFactor_at_zero (zoom : ℚ) : zoomFactor zoom 0 = 1 := by
  norm_num [zoomFactor]

theorem smoothstep_at_zero : smoothstep 0 1 0 = 0 := by
  norm_num [smoothstep, clampQ]

theorem mixV_zero (a b : Vec4) : mixV a b 0 = a := by
  cases a
  simp [mixV]

theorem zoomedUV_at_zero (zoom : ℚ) (uv : ℚ × ℚ) : zoomedUV zoom 0 uv = uv := by
  unfold zoomedUV
  rw [zoomFactor_at_zero]
  cases uv
  simp

/-- Claim C7: rendering with `progress = 0` and the same source bound to
both texture slots (as `renderSingleFrame` and the non-transitioning arm
of `startVideoRender` do) is an exact pass-through of the current frame:
the zoom factor is 1 so the sampled uv is unchanged, the smoothstep mix
factor is 0, and the output equals the from color at every uv, for every
zoom parameter. -/
theorem c7_progress_zero_passthrough (zoom : ℚ) (tex : ℚ × ℚ → Vec4) (uv : ℚ × ℚ) :
    renderSingleFrame tex zoom uv = tex uv
    ∧ zoomFactor zoom 0 = 1
    ∧ smoothstep 0 1 0 = 0
    ∧ zoomedUV zoom 0 uv = uv := by
  refine ⟨?_, zoomFactor_at_zero zoom, smoothstep_at_zero, zoomedUV_at_zero zoom uv⟩
  show mixV (tex (zoomedUV zoom 0 uv)) (tex uv) (smoothstep 0 1 0) = tex uv
  rw [smoothstep_at_zero, mixV_zero, zoomedUV_at_zero]

/-! ### Audio ducking (claims C8 and C10)

`adjustMusicVolume(mediaType)` (lines 1507-1535) reads the CURRENT
element volume as `startVolume`, fixes `targetVolume =
musicVolumes[mediaType]`, and then on each animation frame writes
  `volume = startVolume + (targetVolume - startVolume) * ease(progress)`
with `progress = min(elapsed / 500, 1)` and the quadratic ease-in-out
  `ease(p) = p < 0.5 ? 2 p^2 : 1 - (-2 p + 2)^2 / 2`,
stopping once `progress` reaches 1. -/

/-- The ramp duration constant (`const duration = 500`). -/
def musicRampDurationMs : ℚ := 500

/-- The ease-in-out easing of `adjustMusicVolume`. -/
def easeInOutQ (p : ℚ) : ℚ :=
  if p < 1/2 then 2 * p * p else 1 - (-2 * p + 2) ^ 2 / 2

/-- One volume ramp started by `adjustMusicVolume`: the captured start
volume, the target volume, and the capture time (`startTime =
Date.now()`). -/
structure VolumeRamp where
  start : ℚ
  target : ℚ
  startTime : ℚ
  deriving DecidableEq, Repr

/-- `progress = Math.min(elapsed / duration, 1)` for a ramp at wall-clock
time `now`. -/
def rampProgress (r : VolumeRamp) (now : ℚ) : ℚ :=
  min ((now - r.startTime) / musicRampDurationMs) 1

/-- The volume the ramp writes at wall-clock time `now`. -/
def rampVolumeAt (r : VolumeRamp) (now : ℚ) : ℚ :=
  r.start + (r.target - r.start) * easeInOutQ (rampProgress r now)

/-- `adjustMusicVolume(kind)` called at time `now` while the element
volume is `currentVolume`: it starts a fresh ramp from the current value
toward `musicVolumes[kind]`. -/
def adjustMusicVolume (kind : MediaType) (currentVolume now : ℚ) : VolumeRamp :=
  ⟨currentVolume, musicVolumes kind, now⟩

theorem easeInOutQ_at_zero : easeInOutQ 0 = 0 := by norm_num [easeInOutQ]

theorem easeInOutQ_at_one : easeInOutQ 1 = 1 := by norm_num [easeInOutQ]

/-- Claim C8: after a completed switch to an entry of kind K the ramp
target equals `musicVolumes[K]`; a ramp reaches its target exactly once
500ms have elapsed (the realized volume converges within the ramp
duration); and a ramp started while another is mid-flight restarts from
the currently realized volume — the new ramp's value at its start time
equals the old ramp's value there, so there is no jump. -/
theorem c8_ducking_ramp (r : VolumeRamp) (now tMid : ℚ) (kind : MediaType)
    (index : ℤ) (autoPlay : Bool) (newId : ℕ) (dur : ℚ) (err : String)
    (s : PlayerB) (item : MediaItem)
    (hdone : r.startTime + 500 ≤ now)
    (hguard : 0 ≤ index ∧ index < (demoMediaUrls.length : ℤ) ∧ index ≠ s.currentIndex)
    (hitem : mediaItemAt index = some item) :
    rampVolumeAt r now = r.target
    ∧ (adjustMusicVolume kind (rampVolumeAt r tMid) tMid).target = musicVolumes kind
    ∧ rampVolumeAt (adjustMusicVolume kind (rampVolumeAt r tMid) tMid) tMid
        = rampVolumeAt r tMid
    ∧ (switchToMedia index autoPlay true newId dur err s).map
        (fun res => res.1.musicRampTarget) = some (musicVolumes item.type) := by
  refine ⟨?_, rfl, ?_, ?_⟩
  · have hprog : rampProgress r now = 1 := by
      unfold rampProgress musicRampDurationMs
      rw [min_eq_right]
      rw [le_div_iff₀ (by norm_num : (0:ℚ) < 500)]
      linarith
    rw [rampVolumeAt, hprog, easeInOutQ_at_one]
    ring
  · have hprog : rampProgress (adjustMusicVolume kind (rampVolumeAt r tMid) tMid) tMid = 0 := by
      unfold rampProgress adjustMusicVolume musicRampDurationMs
      norm_num
    rw [rampVolumeAt, hprog, easeInOutQ_at_zero]
    simp [adjustMusicVolume]
  · unfold switchToMedia
    rw [if_pos hguard]
    obtain ⟨iurl, ity, idur⟩ := item
    cases ity <;>
      by_cases hp : (s.currentMedia.isSome && s.isPlaying) = true <;>
      by_cases ha : autoPlay = true <;>
      simp [loadCurrentMedia, hitem, hp, ha]

/-- Witness for C8: the ramp from volume 1/10 toward the image target
9/10 started at time 0 is exactly 9/10 at time 600; a ramp handed off at
time 200 restarts from the realized value; and the concrete switch from
index 0 to the image entry at index 1 sets the ramp target to 9/10. -/
theorem c8_witness :
    rampVolumeAt ⟨1/10, 9/10, 0⟩ 600 = (⟨1/10, 9/10, 0⟩ : VolumeRamp).target
    ∧ (adjustMusicVolume MediaType.image (rampVolumeAt ⟨1/10, 9/10, 0⟩ 200) 200).target
        = musicVolumes MediaType.image
    ∧ rampVolumeAt
        (adjustMusicVolume MediaType.image (rampVolumeAt ⟨1/10, 9/10, 0⟩ 200) 200) 200
        = rampVolumeAt ⟨1/10, 9/10, 0⟩ 200
    ∧ (switchToMedia 1 true true 7 5 "e"
          ⟨0, true, some 0, 10, 3, 1/10, StatusB.other "init"⟩).map
        (fun res => res.1.musicRampTarget)
        = some (musicVolumes (⟨"https://pub-bc00aeb1aeab4b7480c2d94365bb62a9.r2.dev/pexels-noelace-32608050.jpg",
            MediaType.image, some 5⟩ : MediaItem).type) :=
  c8_ducking_ramp ⟨1/10, 9/10, 0⟩ 600 200 MediaType.image 1 true 7 5 "e"
    ⟨0, true, some 0, 10, 3, 1/10, StatusB.other "init"⟩ _
    (by norm_num) (by norm_num [demoMediaUrls]) (by decide)

/-! ### Volume bounds invariant (claim C10)

Every write to `backgroundMusic.volume` is either the initialization
`volume = musicVolumes.video` in `setupBackgroundMusic` (line 1467) or a
ramp frame `startVolume + (targetVolume - startVolume) * easeProgress`
in `adjustMusicVolume`, whose start volume is the value read at ramp
start and whose target is drawn from `musicVolumes`.  We model the
realized volume as the result of a sequence of ramps, each evaluated at
its animation-frame elapsed times (all non-negative for a monotone
clock), and show every reachable value stays in `[1/10, 9/10]`. -/

/-- One animation frame of `animateVolume`: the value written given the
captured start volume, the target, and the elapsed time. -/
def applyRampTick (start target elapsed : ℚ) : ℚ :=
  start + (target - start) * easeInOutQ (min (elapsed / musicRampDurationMs) 1)

/-- Run one `adjustMusicVolume` ramp over its frame times: each frame
overwrites the volume with the value computed from the captured start. -/
def runRamp (v target : ℚ) (ticks : List ℚ) : ℚ :=
  ticks.foldl (fun _ e => applyRampTick v target e) v

/-- Run a sequence of kind changes, each with its own frame times. -/
def runVolumeEvents (v : ℚ) : List (MediaType × List ℚ) → ℚ
  | [] => v
  | (k, ts) :: rest => runVolumeEvents (runRamp v (musicVolumes k) ts) rest

/-- `setupBackgroundMusic` initializes
`this.backgroundMusic.volume = this.musicVolumes.video`. -/
def initialMusicVolume : ℚ := musicVolumes MediaType.video

theorem easeInOutQ_mem_unit {p : ℚ} (h0 : 0 ≤ p) (h1 : p ≤ 1) :
    0 ≤ easeInOutQ p ∧ easeInOutQ p ≤ 1 := by
  unfold easeInOutQ
  split
  · constructor
    · positivity
    · nlinarith
  · constructor
    · nlinarith
    · nlinarith

theorem applyRampTick_bounds {lo hi v t : ℚ} (e : ℚ)
    (hv1 : lo ≤ v) (hv2 : v ≤ hi) (ht1 : lo ≤ t) (ht2 : t ≤ hi) (he : 0 ≤ e) :
    lo ≤ applyRampTick v t e ∧ applyRampTick v t e ≤ hi := by
  have hp0 : 0 ≤ min (e / musicRampDurationMs) 1 := by
    apply le_min
    · unfold musicRampDurationMs
      positivity
    · norm_num
  have hp1 : min (e / musicRampDurationMs) 1 ≤ 1 := min_le_right _ _
  obtain ⟨he0, he1⟩ := easeInOutQ_mem_unit hp0 hp1
  unfold applyRampTick
  constructor <;> nlinarith

theorem foldl_ramp_bounds (lo hi v t : ℚ) (hv1 : lo ≤ v) (hv2 : v ≤ hi)
    (ht1 : lo ≤ t) (ht2 : t ≤ hi) (ticks : List ℚ) :
    (∀ e ∈ ticks, 0 ≤ e) → ∀ acc, lo ≤ acc → acc ≤ hi →
      lo ≤ List.foldl (fun _ e => applyRampTick v t e) acc ticks
      ∧ List.foldl (fun _ e => applyRampTick v t e) acc ticks ≤ hi := by
  induction ticks with
  | nil =>
    intro _ acc h1 h2
    simpa using ⟨h1, h2⟩
  | cons e ts ih =>
    intro hnn acc h1 h2
    simp only [List.foldl_cons]
    have hb := applyRampTick_bounds e hv1 hv2 ht1 ht2 (hnn e (by simp))
    exact ih (fun x hx => hnn x (List.mem_cons_of_mem _ hx)) _ hb.1 hb.2

theorem musicVolumes_mem (k : MediaType) :
    1/10 ≤ musicVolumes k ∧ musicVolumes k ≤ 9/10 := by
  cases k <;> norm_num [musicVolumes]

theorem runVolumeEvents_bounds (events : List (MediaType × List ℚ)) :
    (∀ p ∈ events, ∀ e ∈ p.2, 0 ≤ e) → ∀ v, 1/10 ≤ v → v ≤ 9/10 →
      1/10 ≤ runVolumeEvents v events ∧ runVolumeEvents v events ≤ 9/10 := by
  induction events with
  | nil =>
    intro _ v h1 h2
    rw [runVolumeEvents]
    exact ⟨h1, h2⟩
  | cons p rest ih =>
    intro hnn v h1 h2
    obtain ⟨k, ts⟩ := p
    rw [runVolumeEvents]
    have hk := musicVolumes_mem k
    have hr := foldl_ramp_bounds (1/10) (9/10) v (musicVolumes k) h1 h2 hk.1 hk.2 ts
      (hnn (k, ts) (by simp)) v h1 h2
    exact ih (fun q hq => hnn q (List.mem_cons_of_mem _ hq)) _ hr.1 hr.2

/-- Claim C10: the background-music volume always stays within
`[musicVolumes.video, musicVolumes.image] = [1/10, 9/10]`: it is
initialized to `1/10`, and every ramp write is an eased interpolation
between the in-range current value and a target drawn from
`musicVolumes`, so no sequence of kind changes (with non-negative
elapsed frame times) ever takes any reachable volume — starting from the
initialization or any other in-range value — outside those bounds. -/
theorem c10_volume_within_bounds (events : List (MediaType × List ℚ))
    (hnn : ∀ p ∈ events, ∀ e ∈ p.2, 0 ≤ e) :
    initialMusicVolume = 1/10
    ∧ 1/10 ≤ runVolumeEvents initialMusicVolume events
    ∧ runVolumeEvents initialMusicVolume events ≤ 9/10
    ∧ (∀ v, 1/10 ≤ v → v ≤ 9/10 →
        1/10 ≤ runVolumeEvents v events ∧ runVolumeEvents v events ≤ 9/10) := by
  have hb := runVolumeEvents_bounds events hnn
  exact ⟨rfl, (hb _ (by norm_num [initialMusicVolume, musicVolumes])
      (by norm_num [initialMusicVolume, musicVolumes])).1,
    (hb _ (by norm_num [initialMusicVolume, musicVolumes])
      (by norm_num [initialMusicVolume, musicVolumes])).2,
    hb⟩

/-- Witness for C10: a concrete kind-change history (duck up for an
image, back down for a video, with mid-ramp and post-ramp frames). -/
theorem c10_witness :
    initialMusicVolume = 1/10
    ∧ 1/10 ≤ runVolumeEvents initialMusicVolume
        [(MediaType.image, [100, 600]), (MediaType.video, [250])]
    ∧ runVolumeEvents initialMusicVolume
        [(MediaType.image, [100, 600]), (MediaType.video, [250])] ≤ 9/10
    ∧ (∀ v, 1/10 ≤ v → v ≤ 9/10 →
        1/10 ≤ runVolumeEvents v [(MediaType.image, [100, 600]), (MediaType.video, [250])]
        ∧ runVolumeEvents v [(MediaType.image, [100, 600]), (MediaType.video, [250])] ≤ 9/10) :=
  c10_volume_within_bounds [(MediaType.image, [100, 600]), (MediaType.video, [250])]
    (by norm_num)

end Mediabunny
